import Mathlib

/-!
# Verification of the change-capture-to-realtime-fanout pipeline

A shallow embedding, in Lean 4, of the realtime pipeline of the
`doxle-annotations-be` repository:

* the DynamoDB stream classifier (`src/lambdas/stream-lambda/src/main.rs`);
* the WebSocket broadcast dispatcher (`src/shared/src/sockets/broadcast.rs`);
* the connection registry (`src/shared/src/sockets/connections.rs`);
* the session lifecycle handler (`src/shared/src/sockets/handler.rs`).

Rust functions are translated into pure Lean functions; calls into AWS
services (DynamoDB, the API Gateway management API) are modelled by an
explicit store value and by boolean outcome oracles for the fallible calls.
DynamoDB itself is modelled as a finite association list from a
(partition key, sort key) pair to an item, with the standard
put/delete/scan semantics of the documented key-value boundary.

The stream lambda reads its primary key with
`serde_json::to_value(attr).ok().and_then(as_str)`.  A stream-image
attribute value serializes back to its tagged DynamoDB JSON object (an
`S` attribute to an object with the single field `S`, and so on), and
`as_str` on an object is `None`, so this conversion fails for every
attribute variant; the embedding models it faithfully, and the theorems
record the consequence: primary-key extraction always fails with
`Missing PK`, so the classification branch below it is unreachable dead
code.  The connection registry, by contrast, reads attributes through
the SDK accessor `as_s`, which does succeed (`connOfItem`).
-/

/-- A DynamoDB attribute value, restricted to the variants the pipeline
touches.  `S` is the string variant used for all keys. -/
inductive AttributeValue where
  | S (s : String)
  | N (n : String)
  | Bool (b : Bool)
  | Null
deriving DecidableEq, Repr

/-- An item (attribute map), as an association list preserving the
first-match lookup semantics of a map. -/
abbrev Item := List (String × AttributeValue)

/-- First-match lookup in an association list. -/
def alookup {α : Type} (k : String) : List (String × α) → Option α
  | [] => none
  | (k', v) :: rest => if k = k' then some v else alookup k rest

/-- A minimal JSON value model for notification payloads. -/
inductive Json where
  | str (s : String)
  | bool (b : Bool)
  | null
  | obj (fields : List (String × Json))
deriving Repr

/-- The tagged DynamoDB JSON form a stream-image attribute value takes
under `serde_json::to_value`: the events-crate attribute type
round-trips the stream wire format, so an `S` attribute serializes to
an object with the single field `S`, an `N` attribute to one with the
field `N`, and so on — never to a bare JSON string. -/
def attrToValue : AttributeValue → Json
  | .S s => .obj [("S", .str s)]
  | .N n => .obj [("N", .str n)]
  | .Bool b => .obj [("BOOL", .bool b)]
  | .Null => .obj [("NULL", .bool true)]

/-- `serde_json::Value::as_str`: `Some` only on a JSON string. -/
def jsonValueAsStr : Json → Option String
  | .str s => some s
  | _ => none

/-- Model of `serde_json::to_value(attr).ok().and_then(|v| v.as_str())`
from `process_record`: the attribute serializes to a tagged object, and
`as_str` on an object is `None` — the conversion fails for every
attribute variant, contrary to the adjacent source comment ("the
AttributeValue should be a String variant"). -/
def attrAsString (a : AttributeValue) : Option String :=
  jsonValueAsStr (attrToValue a)

/-- Model of `serde_json::to_value` on an item (attribute map). -/
def imageToJson (img : Item) : Json :=
  .obj (img.map (fun p => (p.1, attrToValue p.2)))

/-- Model of Rust `str::starts_with` on strings. -/
def strStartsWith (s p : String) : Bool :=
  p.data.isPrefixOf s.data

/-- Model of Rust `str::split(c)`: split a character list at every
occurrence of `c`, keeping empty segments. -/
def splitOnChar (c : Char) : List Char → List (List Char)
  | [] => [[]]
  | x :: xs =>
    if x = c then [] :: splitOnChar c xs
    else
      match splitOnChar c xs with
      | [] => [[x]]
      | h :: t => (x :: h) :: t

/-- `extract_id_from_pk` from `stream-lambda/src/main.rs`:
`pk.split('#').nth(1).unwrap_or(pk).to_string()`. -/
def extract_id_from_pk (pk : String) : String :=
  match (splitOnChar '#' pk.data).get? 1 with
  | some l => String.mk l
  | none => pk

/-- `BroadcastMessage` from `shared/src/sockets/messages.rs`: a type tag
plus a flattened JSON payload. -/
structure BroadcastMessage where
  type : String
  data : Json
deriving Repr

/-- A DynamoDB stream event record (`aws_lambda_events` `EventRecord`):
the event name (`INSERT` / `MODIFY` / `REMOVE`) and the old and new
attribute images. -/
structure StreamRecord where
  event_name : String
  old_image : Item
  new_image : Item
deriving Repr

/-- The effective image selected by `process_record`: the new image when
non-empty, else the old image. -/
def effectiveImage (r : StreamRecord) : Item :=
  if r.new_image.isEmpty then r.old_image else r.new_image

/-- Primary-key extraction of `process_record`: look up `PK` in the
effective image and convert it to a string. -/
def getPK (r : StreamRecord) : Option String :=
  (alookup "PK" (effectiveImage r)).bind attrAsString

/-- `create_project_broadcast` from `stream-lambda/src/main.rs`: a message
whose payload is the JSON conversion of the record's new image. -/
def create_project_broadcast (r : StreamRecord) (message_type : String) :
    BroadcastMessage :=
  { type := message_type, data := imageToJson r.new_image }

/-- `create_entity_broadcast` from `stream-lambda/src/main.rs`: identical
to `create_project_broadcast`. -/
def create_entity_broadcast (r : StreamRecord) (message_type : String) :
    BroadcastMessage :=
  { type := message_type, data := imageToJson r.new_image }

/-- The classification core of `process_record` (given the extracted
primary key): the `CONNECTION#` filter, then the match on the event name
and the prefix if-chains.  `none` models the early `return Ok(())` paths
that produce no notification. -/
def classifyAux (r : StreamRecord) (pk : String) :
    Option BroadcastMessage :=
  if strStartsWith pk "CONNECTION#" then none
  else if r.event_name = "INSERT" then
    if strStartsWith pk "PROJECT#" then
      some (create_project_broadcast r "project_created")
    else if strStartsWith pk "BLOCK#" then
      some (create_entity_broadcast r "block_created")
    else if strStartsWith pk "IMAGE#" then
      some (create_entity_broadcast r "image_created")
    else if strStartsWith pk "ANNOTATION#" then
      some (create_entity_broadcast r "annotation_created")
    else if strStartsWith pk "CLASS#" then
      some (create_entity_broadcast r "class_created")
    else none
  else if r.event_name = "MODIFY" then
    if strStartsWith pk "PROJECT#" then
      some (create_project_broadcast r "project_updated")
    else if strStartsWith pk "BLOCK#" then
      some (create_entity_broadcast r "block_updated")
    else if strStartsWith pk "IMAGE#" then
      some (create_entity_broadcast r "image_updated")
    else if strStartsWith pk "ANNOTATION#" then
      some (create_entity_broadcast r "annotation_updated")
    else if strStartsWith pk "CLASS#" then
      some (create_entity_broadcast r "class_updated")
    else none
  else if r.event_name = "REMOVE" then
    let entity_id := extract_id_from_pk pk
    let message_type :=
      if strStartsWith pk "PROJECT#" then some "project_deleted"
      else if strStartsWith pk "BLOCK#" then some "block_deleted"
      else if strStartsWith pk "IMAGE#" then some "image_deleted"
      else if strStartsWith pk "ANNOTATION#" then some "annotation_deleted"
      else if strStartsWith pk "CLASS#" then some "class_deleted"
      else none
    match message_type with
    | none => none
    | some t => some { type := t, data := .obj [("id", .str entity_id)] }
  else none

/-- The record-classification part of `process_record`: primary-key
extraction (failing with `Missing PK` when absent) followed by
classification. -/
def classifyRecord (r : StreamRecord) :
    Except String (Option BroadcastMessage) :=
  match getPK r with
  | none => .error "Missing PK"
  | some pk => .ok (classifyAux r pk)

/-- The notification kind produced for a record, when one is produced. -/
def kindOf (res : Except String (Option BroadcastMessage)) :
    Option String :=
  match res with
  | .ok (some m) => some m.type
  | _ => none

example : classifyRecord ⟨"INSERT", [], [("PK", .S "PROJECT#p1")]⟩ =
    .error "Missing PK" := by rfl

example : classifyRecord ⟨"REMOVE", [("PK", .S "CLASS#c9")], []⟩ =
    .error "Missing PK" := by rfl

example : classifyAux ⟨"INSERT", [], [("PK", .S "PROJECT#p1")]⟩
    "PROJECT#p1" = some ⟨"project_created",
      imageToJson [("PK", .S "PROJECT#p1")]⟩ := by rfl

example : classifyAux ⟨"MODIFY", [], [("PK", .S "USER#u")]⟩ "USER#u" =
    none := by rfl

example : classifyAux ⟨"MODIFY", [], [("PK", .S "CONNECTION#c")]⟩
    "CONNECTION#c" = none := by rfl

example : extract_id_from_pk "PROJECT#p1#x" = "p1" := by rfl

/-! ## The durable store and the connection registry -/

/-- A DynamoDB key: (partition key, sort key). -/
abbrev StoreKey := String × String

/-- The durable store: an association list from key to item, modelling the
single-table DynamoDB store of the documented key-value boundary. -/
abbrev Store := List (StoreKey × Item)

/-- DynamoDB `PutItem`: replace any existing item under the same key. -/
def putItem (s : Store) (k : StoreKey) (it : Item) : Store :=
  (k, it) :: s.filter (fun e => decide (e.1 ≠ k))

/-- DynamoDB `DeleteItem`: remove the item under the key; deleting a
missing key succeeds and leaves the store unchanged. -/
def deleteItem (s : Store) (k : StoreKey) : Store :=
  s.filter (fun e => decide (e.1 ≠ k))

/-- Point lookup in the store. -/
def storeGet (s : Store) (k : StoreKey) : Option Item :=
  match s.find? (fun e => decide (e.1 = k)) with
  | some e => some e.2
  | none => none

/-- `Connection` from `shared/src/sockets/connections.rs`. -/
structure Connection where
  connection_id : String
  user_id : String
  connected_at : String
deriving DecidableEq, Repr

/-- The key used by the registry for a connection id:
`PK = SK = "CONNECTION#" ++ connection_id`. -/
def connPK (connection_id : String) : String :=
  "CONNECTION#" ++ connection_id

/-- The item written by `save_connection`. -/
def connItem (now connection_id user_id : String) : Item :=
  [("PK", .S (connPK connection_id)),
   ("SK", .S (connPK connection_id)),
   ("connection_id", .S connection_id),
   ("user_id", .S user_id),
   ("connected_at", .S now),
   ("entity_type", .S "connection")]

/-- `save_connection` from `shared/src/sockets/connections.rs`: a
`PutItem` of the connection item under `(connPK id, connPK id)`.  `now`
stands for the `chrono::Utc::now` timestamp. -/
def save_connection (s : Store) (now connection_id user_id : String) :
    Store :=
  putItem s (connPK connection_id, connPK connection_id)
    (connItem now connection_id user_id)

/-- `remove_connection` from `shared/src/sockets/connections.rs`: a
`DeleteItem` of the key `(connPK id, connPK id)`. -/
def remove_connection (s : Store) (connection_id : String) : Store :=
  deleteItem s (connPK connection_id, connPK connection_id)

/-- The scan filter of `_get_all_connections`:
`entity_type = "connection"`. -/
def isConnectionItem (it : Item) : Bool :=
  decide (alookup "entity_type" it = some (.S "connection"))

/-- The projection of `_get_all_connections`: an item yields a
`Connection` when its `connection_id`, `user_id` and `connected_at`
attributes are all string attributes (`as_s`). -/
def connOfItem (it : Item) : Option Connection :=
  match alookup "connection_id" it, alookup "user_id" it,
      alookup "connected_at" it with
  | some (.S c), some (.S u), some (.S a) =>
      some { connection_id := c, user_id := u, connected_at := a }
  | _, _, _ => none

/-- `_get_all_connections` from `shared/src/sockets/connections.rs`: scan
the store for items with `entity_type = "connection"` and project each to
a `Connection`. -/
def _get_all_connections (s : Store) : List Connection :=
  ((s.map Prod.snd).filter isConnectionItem).filterMap connOfItem

/-! ## The broadcast dispatcher -/

/-- JSON string quoting (escaping of special characters elided; the
pipeline's keys and kinds contain none). -/
def jsonQuote (s : String) : String :=
  "\"" ++ s ++ "\""

mutual

/-- A JSON serializer, modelling `serde_json::to_string`. -/
def serializeJson : Json → String
  | .str s => jsonQuote s
  | .bool b => cond b "true" "false"
  | .null => "null"
  | .obj fs => "\x7b" ++ serializeFields fs ++ "\x7d"

/-- Serialize the fields of a JSON object. -/
def serializeFields : List (String × Json) → String
  | [] => ""
  | [(k, v)] => jsonQuote k ++ ":" ++ serializeJson v
  | (k, v) :: rest =>
      jsonQuote k ++ ":" ++ serializeJson v ++ "," ++ serializeFields rest

end

/-- Model of `serde_json::to_string` on a `BroadcastMessage`: the `type`
tag is emitted first and the payload's fields are flattened after it
(`#[serde(flatten)]`); flattening a non-object payload is a
serialization error, as in serde. -/
def serializeBroadcast (m : BroadcastMessage) : Except String String :=
  match m.data with
  | .obj fs => .ok (serializeJson (.obj (("type", .str m.type) :: fs)))
  | _ => .error "can only flatten structs and maps"

/-- One `post_to_connection` attempt recorded by the dispatcher model:
the target connection id, the serialized bytes pushed, and whether the
transport call succeeded (per the push-outcome oracle). -/
structure PushAttempt where
  connection_id : String
  wire : String
  ok : Bool
deriving DecidableEq, Repr

/-- The fan-out loop of `_broadcast_to_all`: push the serialized message
to every connection in order; a failed push is logged (its `ok` field is
`false`) and the loop continues. -/
def postLoop (push : String → Bool) (message_json : String) :
    List Connection → List PushAttempt
  | [] => []
  | c :: rest =>
      { connection_id := c.connection_id, wire := message_json,
        ok := push c.connection_id } :: postLoop push message_json rest

/-- `_broadcast_to_all` from `shared/src/sockets/broadcast.rs`: fetch all
connections (an enumeration failure propagates), serialize the message
once, then attempt a push to every connection; per-connection failures do
not abort the loop and the function returns `Ok`. -/
def _broadcast_to_all (push : String → Bool)
    (getAll : Except String (List Connection))
    (message : BroadcastMessage) : Except String (List PushAttempt) :=
  match getAll with
  | .error e => .error e
  | .ok connections =>
    match serializeBroadcast message with
    | .error e => .error e
    | .ok message_json => .ok (postLoop push message_json connections)

/-! ## The stream lambda -/

/-- `process_record` from `stream-lambda/src/main.rs`: classify the
record, then broadcast the resulting message (when there is one) to all
connections.  `.ok none` models the early `return Ok(())` paths where no
broadcast is attempted. -/
def process_record (push : String → Bool)
    (getAll : Except String (List Connection)) (r : StreamRecord) :
    Except String (Option (BroadcastMessage × List PushAttempt)) :=
  match classifyRecord r with
  | .error e => .error e
  | .ok none => .ok none
  | .ok (some message) =>
    match _broadcast_to_all push getAll message with
    | .error e => .error e
    | .ok attempts => .ok (some (message, attempts))

/-- The batch loop of `function_handler`: each record's failure is logged
(kept as an `.error` outcome) and the loop continues with the remaining
records. -/
def handlerLoop {α : Type} (f : StreamRecord → Except String α) :
    List StreamRecord → List (Except String α)
  | [] => []
  | r :: rest =>
    match f r with
    | .error e => .error e :: handlerLoop f rest
    | .ok a => .ok a :: handlerLoop f rest

/-- `function_handler` from `stream-lambda/src/main.rs`: process every
record of the batch, logging and skipping failures, and return `Ok`. -/
def function_handler (push : String → Bool)
    (getAll : Except String (List Connection))
    (records : List StreamRecord) :
    Except String (List (Except String
      (Option (BroadcastMessage × List PushAttempt)))) :=
  .ok (handlerLoop (process_record push getAll) records)

/-! ## The session lifecycle handler -/

/-- The identity hints carried by a `$connect` event: the `user_id` query
parameter and the JWT `sub` claim. -/
structure ConnectEvent where
  query_user_id : Option String
  jwt_sub : Option String
deriving DecidableEq, Repr

/-- The subscriber-identity resolution of `handle_connect`: the `user_id`
query parameter when present, else (`or_else`) the JWT `sub` claim, else
(`unwrap_or_else`) `"anonymous"`. -/
def resolve_user_id (e : ConnectEvent) : String :=
  match e.query_user_id with
  | some q => q
  | none =>
    match e.jwt_sub with
    | some s => s
    | none => "anonymous"

/-- `handle_connect` from `shared/src/sockets/handler.rs`: resolve the
identity, save the connection (a storage failure, modelled by the
`saveFails` oracle, propagates via `?` and rejects the connect), and
answer 200. -/
def handle_connect (saveFails : Bool) (s : Store) (now connection_id : String)
    (e : ConnectEvent) : Except String (Store × Nat) :=
  if saveFails then .error "storage error"
  else .ok (save_connection s now connection_id (resolve_user_id e), 200)

/-- `handle_disconnect` from `shared/src/sockets/handler.rs`: remove the
connection (a storage failure, modelled by the `removeFails` oracle,
propagates via `?`), then answer 200. -/
def handle_disconnect (removeFails : Bool) (s : Store)
    (connection_id : String) : Except String (Store × Nat) :=
  if removeFails then .error "storage error"
  else .ok (remove_connection s connection_id, 200)

example : _get_all_connections
    (save_connection (save_connection [] "t0" "c1" "u1") "t1" "c1" "u2") =
    [⟨"c1", "u2", "t1"⟩] := by rfl

example : remove_connection [] "c1" = [] := by rfl

/-- `WebSocketMessage` from `shared/src/sockets/messages.rs`: the action
string plus the flattened remainder of the envelope. -/
structure WebSocketMessage where
  action : String
  data : Json

/-- The outcome of `handle_message` when it does not propagate an error:
either a structured client-error response (status and body), or a
dispatch to a CRUD collaborator (named operation with the validated
arguments), whose durable write is what the stream later observes. -/
inductive MessageOutcome where
  | clientError (status : Nat) (body : String)
  | dispatched (op : String) (args : List String)
deriving DecidableEq, Repr

/-- Model of `message.data.get(key).and_then(|v| v.as_str())`. -/
def jsonGetStr (data : Json) (key : String) : Option String :=
  match data with
  | .obj fs =>
    match alookup key fs with
    | some (.str s) => some s
    | _ => none
  | _ => none

/-- `handle_message` from `shared/src/sockets/handler.rs`: resolve the
user id (JWT `sub` claim, else the `user_id` field of the data, else
`"test-user-123"`), then dispatch on the action string.  Every
`.ok_or("Missing ...")?` of the source is modelled by an `.error`
return; the unknown-action arm answers with a structured 400 response. -/
def handle_message (jwt_sub : Option String) (msg : WebSocketMessage) :
    Except String MessageOutcome :=
  let user_id :=
    match jwt_sub with
    | some s => s
    | none =>
      match jsonGetStr msg.data "user_id" with
      | some s => s
      | none => "test-user-123"
  if msg.action = "create_project" then
    .ok (.dispatched "create_project" [user_id])
  else if msg.action = "update_project" then
    match jsonGetStr msg.data "project_id" with
    | none => .error "Missing project_id"
    | some project_id => .ok (.dispatched "update_project" [project_id])
  else if msg.action = "delete_project" then
    match jsonGetStr msg.data "project_id" with
    | none => .error "Missing project_id"
    | some project_id =>
        .ok (.dispatched "delete_project" [project_id, user_id])
  else if msg.action = "create_block" then
    match jsonGetStr msg.data "project_id" with
    | none => .error "Missing project_id"
    | some project_id => .ok (.dispatched "create_block" [project_id])
  else if msg.action = "update_block" then
    match jsonGetStr msg.data "block_id" with
    | none => .error "Missing block_id"
    | some block_id => .ok (.dispatched "update_block" [block_id])
  else if msg.action = "delete_block" then
    match jsonGetStr msg.data "block_id" with
    | none => .error "Missing block_id"
    | some block_id => .ok (.dispatched "delete_block" [block_id])
  else if msg.action = "create_image" then
    match jsonGetStr msg.data "block_id" with
    | none => .error "Missing block_id"
    | some block_id => .ok (.dispatched "create_image" [block_id])
  else if msg.action = "update_image" then
    match jsonGetStr msg.data "image_id" with
    | none => .error "Missing image_id"
    | some image_id => .ok (.dispatched "update_image" [image_id])
  else if msg.action = "delete_image" then
    match jsonGetStr msg.data "image_id" with
    | none => .error "Missing image_id"
    | some image_id => .ok (.dispatched "delete_image" [image_id])
  else if msg.action = "create_class" then
    match jsonGetStr msg.data "project_id" with
    | none => .error "Missing project_id"
    | some project_id => .ok (.dispatched "create_class" [project_id])
  else if msg.action = "update_class" then
    match jsonGetStr msg.data "project_id" with
    | none => .error "Missing project_id"
    | some project_id =>
      match jsonGetStr msg.data "class_id" with
      | none => .error "Missing class_id"
      | some class_id =>
          .ok (.dispatched "update_class" [project_id, class_id])
  else if msg.action = "delete_class" then
    match jsonGetStr msg.data "project_id" with
    | none => .error "Missing project_id"
    | some project_id =>
      match jsonGetStr msg.data "class_id" with
      | none => .error "Missing class_id"
      | some class_id =>
          .ok (.dispatched "delete_class" [project_id, class_id])
  else if msg.action = "create_annotation" then
    match jsonGetStr msg.data "image_id" with
    | none => .error "Missing image_id"
    | some image_id =>
      match jsonGetStr msg.data "project_id" with
      | none => .error "Missing project_id"
      | some project_id =>
          .ok (.dispatched "create_annotation" [user_id, image_id, project_id])
  else if msg.action = "update_annotation" then
    match jsonGetStr msg.data "image_id" with
    | none => .error "Missing image_id"
    | some image_id =>
      match jsonGetStr msg.data "annotation_id" with
      | none => .error "Missing annotation_id"
      | some annotation_id =>
        match jsonGetStr msg.data "project_id" with
        | none => .error "Missing project_id"
        | some project_id =>
            .ok (.dispatched "update_annotation"
              [image_id, annotation_id, project_id])
  else if msg.action = "delete_annotation" then
    match jsonGetStr msg.data "image_id" with
    | none => .error "Missing image_id"
    | some image_id =>
      match jsonGetStr msg.data "annotation_id" with
      | none => .error "Missing annotation_id"
      | some annotation_id =>
        match jsonGetStr msg.data "project_id" with
        | none => .error "Missing project_id"
        | some project_id =>
            .ok (.dispatched "delete_annotation"
              [image_id, annotation_id, project_id])
  else
    .ok (.clientError 400
      ("\x7b\"error\": \"Unknown action: " ++ msg.action ++ "\"\x7d"))

example : handle_message none ⟨"update_block", .obj []⟩ =
    .error "Missing block_id" := by rfl

example : handle_message none ⟨"dance", .obj []⟩ =
    .ok (.clientError 400 "\x7b\"error\": \"Unknown action: dance\"\x7d") := by
  rfl

/-- Whether an `Except` result is a success. -/
def exceptIsOk {ε α : Type} : Except ε α → Bool
  | .ok _ => true
  | .error _ => false

/-! ## Helper lemmas -/

theorem strStartsWith_append (p rest : String) :
    strStartsWith (p ++ rest) p = true := by
  simp [strStartsWith]

theorem classifyAux_project (r : StreamRecord) (rest : String) :
    classifyAux r ("PROJECT#" ++ rest) =
      if r.event_name = "INSERT" then
        some (create_project_broadcast r "project_created")
      else if r.event_name = "MODIFY" then
        some (create_project_broadcast r "project_updated")
      else if r.event_name = "REMOVE" then
        some ⟨"project_deleted",
          .obj [("id", .str (extract_id_from_pk ("PROJECT#" ++ rest)))]⟩
      else none := by
  unfold classifyAux
  rw [show strStartsWith ("PROJECT#" ++ rest) "CONNECTION#" = false from rfl,
    strStartsWith_append "PROJECT#" rest]
  simp

theorem classifyAux_block (r : StreamRecord) (rest : String) :
    classifyAux r ("BLOCK#" ++ rest) =
      if r.event_name = "INSERT" then
        some (create_entity_broadcast r "block_created")
      else if r.event_name = "MODIFY" then
        some (create_entity_broadcast r "block_updated")
      else if r.event_name = "REMOVE" then
        some ⟨"block_deleted",
          .obj [("id", .str (extract_id_from_pk ("BLOCK#" ++ rest)))]⟩
      else none := by
  unfold classifyAux
  rw [show strStartsWith ("BLOCK#" ++ rest) "CONNECTION#" = false from rfl,
    show strStartsWith ("BLOCK#" ++ rest) "PROJECT#" = false from rfl,
    strStartsWith_append "BLOCK#" rest]
  simp

theorem classifyAux_image (r : StreamRecord) (rest : String) :
    classifyAux r ("IMAGE#" ++ rest) =
      if r.event_name = "INSERT" then
        some (create_entity_broadcast r "image_created")
      else if r.event_name = "MODIFY" then
        some (create_entity_broadcast r "image_updated")
      else if r.event_name = "REMOVE" then
        some ⟨"image_deleted",
          .obj [("id", .str (extract_id_from_pk ("IMAGE#" ++ rest)))]⟩
      else none := by
  unfold classifyAux
  rw [show strStartsWith ("IMAGE#" ++ rest) "CONNECTION#" = false from rfl,
    show strStartsWith ("IMAGE#" ++ rest) "PROJECT#" = false from rfl,
    show strStartsWith ("IMAGE#" ++ rest) "BLOCK#" = false from rfl,
    strStartsWith_append "IMAGE#" rest]
  simp

theorem classifyAux_annot (r : StreamRecord) (rest : String) :
    classifyAux r ("ANNOTATION#" ++ rest) =
      if r.event_name = "INSERT" then
        some (create_entity_broadcast r "annotation_created")
      else if r.event_name = "MODIFY" then
        some (create_entity_broadcast r "annotation_updated")
      else if r.event_name = "REMOVE" then
        some ⟨"annotation_deleted",
          .obj [("id", .str (extract_id_from_pk ("ANNOTATION#" ++ rest)))]⟩
      else none := by
  unfold classifyAux
  rw [show strStartsWith ("ANNOTATION#" ++ rest) "CONNECTION#" = false from rfl,
    show strStartsWith ("ANNOTATION#" ++ rest) "PROJECT#" = false from rfl,
    show strStartsWith ("ANNOTATION#" ++ rest) "BLOCK#" = false from rfl,
    show strStartsWith ("ANNOTATION#" ++ rest) "IMAGE#" = false from rfl,
    strStartsWith_append "ANNOTATION#" rest]
  simp

theorem classifyAux_class (r : StreamRecord) (rest : String) :
    classifyAux r ("CLASS#" ++ rest) =
      if r.event_name = "INSERT" then
        some (create_entity_broadcast r "class_created")
      else if r.event_name = "MODIFY" then
        some (create_entity_broadcast r "class_updated")
      else if r.event_name = "REMOVE" then
        some ⟨"class_deleted",
          .obj [("id", .str (extract_id_from_pk ("CLASS#" ++ rest)))]⟩
      else none := by
  unfold classifyAux
  rw [show strStartsWith ("CLASS#" ++ rest) "CONNECTION#" = false from rfl,
    show strStartsWith ("CLASS#" ++ rest) "PROJECT#" = false from rfl,
    show strStartsWith ("CLASS#" ++ rest) "BLOCK#" = false from rfl,
    show strStartsWith ("CLASS#" ++ rest) "IMAGE#" = false from rfl,
    show strStartsWith ("CLASS#" ++ rest) "ANNOTATION#" = false from rfl,
    strStartsWith_append "CLASS#" rest]
  simp

theorem classifyAux_connection (r : StreamRecord) (rest : String) :
    classifyAux r ("CONNECTION#" ++ rest) = none := by
  unfold classifyAux
  rw [strStartsWith_append "CONNECTION#" rest]
  simp

theorem classifyAux_foreign (r : StreamRecord) (pk : String)
    (h1 : strStartsWith pk "PROJECT#" = false)
    (h2 : strStartsWith pk "BLOCK#" = false)
    (h3 : strStartsWith pk "IMAGE#" = false)
    (h4 : strStartsWith pk "ANNOTATION#" = false)
    (h5 : strStartsWith pk "CLASS#" = false)
    (h6 : strStartsWith pk "CONNECTION#" = false) :
    classifyAux r pk = none := by
  unfold classifyAux
  rw [h1, h2, h3, h4, h5, h6]
  simp

theorem attrAsString_eq_none (a : AttributeValue) : attrAsString a = none := by
  cases a <;> rfl

theorem getPK_eq_none (r : StreamRecord) : getPK r = none := by
  unfold getPK
  cases alookup "PK" (effectiveImage r) with
  | none => rfl
  | some a => exact attrAsString_eq_none a

theorem classifyRecord_missing_pk (r : StreamRecord) :
    classifyRecord r = .error "Missing PK" := by
  simp only [classifyRecord, getPK_eq_none r]

theorem process_record_missing_pk (push : String → Bool)
    (getAll : Except String (List Connection)) (r : StreamRecord) :
    process_record push getAll r = .error "Missing PK" := by
  simp only [process_record, classifyRecord_missing_pk r]

/-- C1 (code-bug evidence): the claimed classification never happens.
`serde_json::to_value` of a stream-image attribute yields its tagged
object, on which `as_str` is `None`, so primary-key extraction fails on
every record — the claim's well-formed domain records included — and
`process_record` fails each with `Missing PK` instead of classifying it
by the (unreachable) operation-by-prefix table. -/
theorem classifier_never_fires (r : StreamRecord) :
    getPK r = none ∧ classifyRecord r = .error "Missing PK" :=
  ⟨getPK_eq_none r, classifyRecord_missing_pk r⟩

theorem postLoop_map_id (push : String → Bool) (wire : String)
    (cs : List Connection) :
    (postLoop push wire cs).map PushAttempt.connection_id =
      cs.map Connection.connection_id := by
  induction cs with
  | nil => rfl
  | cons c rest ih => simp [postLoop, ih]

theorem postLoop_wire (push : String → Bool) (wire : String)
    (cs : List Connection) :
    ∀ a ∈ postLoop push wire cs, a.wire = wire := by
  induction cs with
  | nil => intro a ha; cases ha
  | cons c rest ih =>
    intro a ha
    cases ha with
    | head => rfl
    | tail _ hm => exact ih a hm

/-- C2: broadcasting a notification (whose payload is a JSON object, as
every classifier-produced payload is) to a successfully enumerated list
of connections serializes it once, attempts a push to every connection in
the list with that one serialization — independently of which pushes
fail — and returns `Ok`. -/
theorem broadcast_fanout_isolation (push : String → Bool)
    (cs : List Connection) (t : String) (fs : List (String × Json)) :
    _broadcast_to_all push (.ok cs) ⟨t, .obj fs⟩ =
      .ok (postLoop push (serializeJson (.obj (("type", .str t) :: fs))) cs) ∧
    (postLoop push (serializeJson (.obj (("type", .str t) :: fs)))
        cs).map PushAttempt.connection_id =
      cs.map Connection.connection_id ∧
    ∀ a ∈ postLoop push (serializeJson (.obj (("type", .str t) :: fs))) cs,
      a.wire = serializeJson (.obj (("type", .str t) :: fs)) :=
  ⟨rfl, postLoop_map_id push _ cs, postLoop_wire push _ cs⟩

/-- Witness for `broadcast_fanout_isolation`: a failing push is still
recorded as an attempt carrying the single serialization. -/
theorem broadcast_fanout_isolation_witness :
    (⟨"c1", serializeJson (.obj [("type", Json.str "x")]), false⟩ :
      PushAttempt) ∈ postLoop (fun _ => false)
        (serializeJson (.obj [("type", Json.str "x")]))
        [⟨"c1", "u1", "t1"⟩] ∧
    (⟨"c1", serializeJson (.obj [("type", Json.str "x")]), false⟩ :
      PushAttempt).wire = serializeJson (.obj [("type", Json.str "x")]) :=
  ⟨by simp [postLoop],
   (broadcast_fanout_isolation (fun _ => false) [⟨"c1", "u1", "t1"⟩]
     "x" []).2.2 _ (by simp [postLoop])⟩

theorem handlerLoop_eq_map {α : Type} (f : StreamRecord → Except String α)
    (records : List StreamRecord) :
    handlerLoop f records = records.map f := by
  induction records with
  | nil => rfl
  | cons r rest ih =>
    unfold handlerLoop
    match h : f r with
    | .error e => rw [ih, List.map_cons, h]
    | .ok a => rw [ih, List.map_cons, h]

/-- C3: the stream lambda's batch loop always returns `Ok`, and the
outcome recorded for the record at index `i` is exactly
`process_record` of that record — so a failing record (for example one
with no primary key) is merely kept as a logged error and has no effect
on the processing of any other record of the batch. -/
theorem batch_partial_failure_isolation (push : String → Bool)
    (getAll : Except String (List Connection))
    (records : List StreamRecord) :
    function_handler push getAll records =
      .ok (handlerLoop (process_record push getAll) records) ∧
    handlerLoop (process_record push getAll) records =
      records.map (process_record push getAll) ∧
    ∀ i : Nat, (handlerLoop (process_record push getAll) records)[i]? =
      records[i]?.map (process_record push getAll) := by
  refine ⟨rfl, handlerLoop_eq_map _ records, ?_⟩
  intro i
  rw [handlerLoop_eq_map _ records]
  exact List.getElem?_map _ _ i

example : function_handler (fun _ => true) (.ok [])
    [⟨"INSERT", [], [("no_pk", .S "x")]⟩,
     ⟨"INSERT", [], [("PK", .S "PROJECT#p")]⟩] =
    .ok [.error "Missing PK", .error "Missing PK"] := by rfl

/-- C4 (code-bug evidence): at the failing input — a `Deleted` record
for key `IMAGE#img7` carrying only the prior image — the code fails the
record with `Missing PK` and emits nothing, not the claimed
`image_deleted` notification with payload id `img7`; indeed no record
ever yields a notification kind.  (In the unreachable delete branch the
payload id would moreover be the segment of the key between the first
and second `#`, per `extract_id_from_pk`, not always the whole portion
after the prefix.) -/
theorem delete_payload_never_emitted :
    classifyRecord ⟨"REMOVE", [("PK", .S "IMAGE#img7")], []⟩ =
      .error "Missing PK" ∧
    (∀ r : StreamRecord, kindOf (classifyRecord r) = none) :=
  ⟨classifyRecord_missing_pk _,
   fun r => by simp only [kindOf, classifyRecord_missing_pk r]⟩


/-- The notification a processed record produced, if any. -/
def notificationOf
    (res : Except String (Option (BroadcastMessage × List PushAttempt))) :
    Option BroadcastMessage :=
  match res with
  | .ok (some (m, _)) => some m
  | _ => none

/-- The push attempts a processed record caused, if any. -/
def pushesOf
    (res : Except String (Option (BroadcastMessage × List PushAttempt))) :
    List PushAttempt :=
  match res with
  | .ok (some (_, attempts)) => attempts
  | _ => []

/-- C5: a record whose effective image's primary key is a `CONNECTION#`
key produces no notification and causes no push attempt, whatever the
operation.  In the code as written this holds because the record — like
every record — is failed at key extraction before any broadcast; the
classification branch's `CONNECTION#` filter, proved in the last
conjunct, would discard it even if extraction succeeded. -/
theorem connection_records_filtered (push : String → Bool)
    (getAll : Except String (List Connection))
    (ev : String) (oldI newI : Item) (rest : String)
    (_hpk : alookup "PK" (effectiveImage ⟨ev, oldI, newI⟩) =
      some (.S ("CONNECTION#" ++ rest))) :
    notificationOf (process_record push getAll ⟨ev, oldI, newI⟩) = none ∧
    pushesOf (process_record push getAll ⟨ev, oldI, newI⟩) = [] ∧
    classifyAux ⟨ev, oldI, newI⟩ ("CONNECTION#" ++ rest) = none := by
  refine ⟨?_, ?_, classifyAux_connection _ rest⟩
  · simp only [notificationOf, process_record_missing_pk]
  · simp only [pushesOf, process_record_missing_pk]

/-- Witness for `connection_records_filtered` at a concrete record. -/
theorem connection_records_filtered_witness :
    notificationOf (process_record (fun _ => true) (.ok [])
      ⟨"INSERT", [], [("PK", .S "CONNECTION#abc")]⟩) = none ∧
    pushesOf (process_record (fun _ => true) (.ok [])
      ⟨"INSERT", [], [("PK", .S "CONNECTION#abc")]⟩) = [] ∧
    classifyAux ⟨"INSERT", [], [("PK", .S "CONNECTION#abc")]⟩
      ("CONNECTION#" ++ "abc") = none :=
  connection_records_filtered (fun _ => true) (.ok []) "INSERT" []
    [("PK", .S "CONNECTION#abc")] "abc" rfl

theorem storeGet_putItem (s : Store) (k : StoreKey) (it : Item) :
    storeGet (putItem s k it) k = some it := by
  simp [storeGet, putItem]

/-- C6 counterexample: a connect event that carries both a token claim
(`sub = "token-user"`) and a `user_id` query parameter (`"qp-user"`)
registers the query-parameter identity, not the token claim. -/
theorem connect_identity_counterexample :
    resolve_user_id ⟨some "qp-user", some "token-user"⟩ = "qp-user" ∧
    handle_connect false [] "t0" "c1" ⟨some "qp-user", some "token-user"⟩ =
      .ok (save_connection [] "t0" "c1" "qp-user", 200) ∧
    _get_all_connections (save_connection [] "t0" "c1" "qp-user") =
      [⟨"c1", "qp-user", "t0"⟩] ∧
    "qp-user" ≠ "token-user" :=
  ⟨rfl, rfl, rfl, by decide⟩

/-- C6 (amended): on connect the registered identity is resolved with
the precedence query parameter first, then the token claim, then the
sentinel `"anonymous"`; the identity stored by register is exactly the
resolved one. -/
theorem connect_identity_precedence (s : Store) (now cid : String) :
    (∀ q j, resolve_user_id ⟨some q, j⟩ = q) ∧
    (∀ j, resolve_user_id ⟨none, some j⟩ = j) ∧
    resolve_user_id ⟨none, none⟩ = "anonymous" ∧
    (∀ e, handle_connect false s now cid e =
      .ok (save_connection s now cid (resolve_user_id e), 200)) ∧
    (∀ e, storeGet (save_connection s now cid (resolve_user_id e))
      (connPK cid, connPK cid) = some (connItem now cid (resolve_user_id e))) ∧
    (∀ u, alookup "user_id" (connItem now cid u) = some (.S u)) :=
  ⟨fun _ _ => rfl, fun _ => rfl, rfl, fun _ => rfl,
   fun _ => storeGet_putItem s _ _, fun _ => rfl⟩

/-- C7 counterexample: the envelope `{"action": "update_block"}` with no
`block_id` field makes the handler invocation fail with the propagated
error `Missing block_id` — it does not answer with a structured client
error. -/
theorem missing_field_counterexample :
    handle_message none ⟨"update_block", .obj []⟩ =
      .error "Missing block_id" ∧
    exceptIsOk (handle_message none ⟨"update_block", .obj []⟩) = false :=
  ⟨rfl, rfl⟩

/-- C7 (amended): for every recognized action whose data lacks a
required field, the handler performs no registry or store call, but
instead of answering with a structured client error it propagates the
missing-field error, failing the handler invocation. -/
theorem missing_field_no_dispatch (jwt : Option String) (data : Json) :
    (jsonGetStr data "project_id" = none →
      handle_message jwt ⟨"update_project", data⟩ =
        .error "Missing project_id") ∧
    (jsonGetStr data "project_id" = none →
      handle_message jwt ⟨"delete_project", data⟩ =
        .error "Missing project_id") ∧
    (jsonGetStr data "project_id" = none →
      handle_message jwt ⟨"create_block", data⟩ =
        .error "Missing project_id") ∧
    (jsonGetStr data "block_id" = none →
      handle_message jwt ⟨"update_block", data⟩ =
        .error "Missing block_id") ∧
    (jsonGetStr data "block_id" = none →
      handle_message jwt ⟨"delete_block", data⟩ =
        .error "Missing block_id") ∧
    (jsonGetStr data "block_id" = none →
      handle_message jwt ⟨"create_image", data⟩ =
        .error "Missing block_id") ∧
    (jsonGetStr data "image_id" = none →
      handle_message jwt ⟨"update_image", data⟩ =
        .error "Missing image_id") ∧
    (jsonGetStr data "image_id" = none →
      handle_message jwt ⟨"delete_image", data⟩ =
        .error "Missing image_id") ∧
    (jsonGetStr data "project_id" = none →
      handle_message jwt ⟨"create_class", data⟩ =
        .error "Missing project_id") ∧
    (jsonGetStr data "project_id" = none →
      handle_message jwt ⟨"update_class", data⟩ =
        .error "Missing project_id") ∧
    (jsonGetStr data "project_id" = none →
      handle_message jwt ⟨"delete_class", data⟩ =
        .error "Missing project_id") ∧
    (jsonGetStr data "image_id" = none →
      handle_message jwt ⟨"create_annotation", data⟩ =
        .error "Missing image_id") ∧
    (jsonGetStr data "image_id" = none →
      handle_message jwt ⟨"update_annotation", data⟩ =
        .error "Missing image_id") ∧
    (jsonGetStr data "image_id" = none →
      handle_message jwt ⟨"delete_annotation", data⟩ =
        .error "Missing image_id") ∧
    (∀ pid, jsonGetStr data "project_id" = some pid →
      jsonGetStr data "class_id" = none →
      handle_message jwt ⟨"update_class", data⟩ =
        .error "Missing class_id") ∧
    (∀ pid, jsonGetStr data "project_id" = some pid →
      jsonGetStr data "class_id" = none →
      handle_message jwt ⟨"delete_class", data⟩ =
        .error "Missing class_id") ∧
    (∀ iid, jsonGetStr data "image_id" = some iid →
      jsonGetStr data "project_id" = none →
      handle_message jwt ⟨"create_annotation", data⟩ =
        .error "Missing project_id") ∧
    (∀ iid, jsonGetStr data "image_id" = some iid →
      jsonGetStr data "annotation_id" = none →
      handle_message jwt ⟨"update_annotation", data⟩ =
        .error "Missing annotation_id") ∧
    (∀ iid aid, jsonGetStr data "image_id" = some iid →
      jsonGetStr data "annotation_id" = some aid →
      jsonGetStr data "project_id" = none →
      handle_message jwt ⟨"update_annotation", data⟩ =
        .error "Missing project_id") ∧
    (∀ iid, jsonGetStr data "image_id" = some iid →
      jsonGetStr data "annotation_id" = none →
      handle_message jwt ⟨"delete_annotation", data⟩ =
        .error "Missing annotation_id") ∧
    (∀ iid aid, jsonGetStr data "image_id" = some iid →
      jsonGetStr data "annotation_id" = some aid →
      jsonGetStr data "project_id" = none →
      handle_message jwt ⟨"delete_annotation", data⟩ =
        .error "Missing project_id") := by
  refine ⟨?_, ?_, ?_, ?_, ?_, ?_, ?_, ?_, ?_, ?_, ?_, ?_, ?_, ?_, ?_, ?_,
    ?_, ?_, ?_, ?_, ?_⟩ <;>
    first
      | (intro h; simp [handle_message, h])
      | (intro x h1 h2; simp [handle_message, h1, h2])
      | (intro x y h1 h2 h3; simp [handle_message, h1, h2, h3])

/-- Witness for `missing_field_no_dispatch`: a first-checked and a
later-checked required field, each missing at a concrete envelope. -/
theorem missing_field_no_dispatch_witness :
    (jsonGetStr (.obj []) "block_id" = none ∧
     handle_message none ⟨"update_block", Json.obj []⟩ =
       .error "Missing block_id") ∧
    (jsonGetStr (.obj [("project_id", .str "p1")]) "project_id" =
       some "p1" ∧
     jsonGetStr (.obj [("project_id", .str "p1")]) "class_id" = none ∧
     handle_message none
       ⟨"update_class", .obj [("project_id", .str "p1")]⟩ =
       .error "Missing class_id") :=
  ⟨⟨rfl, (missing_field_no_dispatch none (.obj [])).2.2.2.1 rfl⟩,
   ⟨rfl, rfl,
    (missing_field_no_dispatch none
        (.obj [("project_id", .str "p1")])
      ).2.2.2.2.2.2.2.2.2.2.2.2.2.2.1 "p1" rfl rfl⟩⟩

/-- C8 counterexample: when deregistration fails on disconnect, the
failure propagates and disconnect handling does not complete
successfully. -/
theorem disconnect_failure_counterexample :
    handle_disconnect true [] "c1" = .error "storage error" ∧
    exceptIsOk (handle_disconnect true [] "c1") = false :=
  ⟨rfl, rfl⟩

/-- C8 (amended): on disconnect the handler calls deregister for the
connection; on success it answers 200 after removing the registry entry,
and when deregistration fails the error propagates to the transport
layer instead of being swallowed. -/
theorem disconnect_deregisters (s : Store) (cid : String) :
    handle_disconnect false s cid = .ok (remove_connection s cid, 200) ∧
    handle_disconnect true s cid = .error "storage error" :=
  ⟨rfl, rfl⟩

/-! ## Registry idempotence -/

/-- The number of registry entries carrying a given connection id. -/
def connCount (cid : String) (conns : List Connection) : Nat :=
  (conns.filter (fun c => decide (c.connection_id = cid))).length

theorem save_connection_idem (s : Store) (n1 u1 n2 u2 cid : String) :
    save_connection (save_connection s n1 cid u1) n2 cid u2 =
      save_connection s n2 cid u2 := by
  unfold save_connection putItem
  congr 1
  rw [List.filter_cons]
  simp [List.filter_filter]

theorem get_all_save (s : Store) (now cid uid : String) :
    _get_all_connections (save_connection s now cid uid) =
      ⟨cid, uid, now⟩ :: _get_all_connections
        (s.filter (fun e =>
          decide (e.1 ≠ (connPK cid, connPK cid)))) := by
  unfold _get_all_connections save_connection putItem
  rw [List.map_cons, List.filter_cons,
    show isConnectionItem (connItem now cid uid) = true from rfl]
  simp only [if_true]
  rw [List.filterMap_cons,
    show connOfItem (connItem now cid uid) = some ⟨cid, uid, now⟩ from rfl]

theorem get_all_filter_sublist (s : Store) (q : StoreKey × Item → Bool) :
    List.Sublist (_get_all_connections (s.filter q))
      (_get_all_connections s) := by
  unfold _get_all_connections
  exact (((List.filter_sublist s).map Prod.snd).filter
    isConnectionItem).filterMap connOfItem

theorem register_single_entry (s : Store) (now cid uid : String)
    (h : connCount cid (_get_all_connections s) = 0) :
    connCount cid (_get_all_connections (save_connection s now cid uid)) =
      1 := by
  rw [get_all_save]
  unfold connCount
  rw [List.filter_cons]
  simp only [decide_eq_true_eq]
  rw [if_true, List.length_cons]
  have hle : connCount cid (_get_all_connections
      (s.filter (fun e => decide (e.1 ≠ (connPK cid, connPK cid))))) ≤
      connCount cid (_get_all_connections s) :=
    ((get_all_filter_sublist s _).filter _).length_le
  rw [h] at hle
  unfold connCount at hle
  rw [Nat.le_zero.mp hle]

theorem deregister_unknown_noop (s : Store) (cid : String)
    (h : ∀ e ∈ s, e.1 ≠ (connPK cid, connPK cid)) :
    remove_connection s cid = s := by
  unfold remove_connection deleteItem
  rw [List.filter_eq_self.mpr]
  intro a ha
  exact decide_eq_true (h a ha)

/-- C9: `register` is an idempotent upsert — registering the same
connection id twice equals registering it once, and from a registry with
no entry for that id it leaves exactly one logical entry in `list_all` —
and `deregister` is an idempotent delete: on an id that was never
registered it succeeds and leaves the store unchanged. -/
theorem registry_idempotence :
    (∀ (s : Store) (n1 u1 n2 u2 cid : String),
      save_connection (save_connection s n1 cid u1) n2 cid u2 =
        save_connection s n2 cid u2) ∧
    (∀ (s : Store) (now cid uid : String),
      connCount cid (_get_all_connections s) = 0 →
      connCount cid (_get_all_connections (save_connection s now cid uid)) =
        1) ∧
    (∀ (s : Store) (cid : String),
      (∀ e ∈ s, e.1 ≠ (connPK cid, connPK cid)) →
      remove_connection s cid = s) :=
  ⟨save_connection_idem, register_single_entry, deregister_unknown_noop⟩

/-- Witness for `registry_idempotence` at concrete registrations. -/
theorem registry_idempotence_witness :
    save_connection (save_connection [] "t0" "c1" "u1") "t1" "c1" "u2" =
      save_connection [] "t1" "c1" "u2" ∧
    connCount "c1"
      (_get_all_connections (save_connection [] "t1" "c1" "u2")) = 1 ∧
    remove_connection ([] : Store) "c9" = [] :=
  ⟨registry_idempotence.1 [] "t0" "u1" "t1" "u2" "c1",
   registry_idempotence.2.1 [] "t1" "c1" "u2" rfl,
   registry_idempotence.2.2 [] "c9"
     (fun e he => absurd he (List.not_mem_nil e))⟩

/-- C10 counterexample: the stream record produced by registering
connection `c1` is not discarded by the classifier's `CONNECTION#`
filter: key extraction fails first, so the record is failed with
`Missing PK` rather than skipped cleanly. -/
theorem registry_record_not_discarded :
    process_record (fun _ => true) (.ok [])
      ⟨"INSERT", [], connItem "t0" "c1" "u1"⟩ = .error "Missing PK" ∧
    process_record (fun _ => true) (.ok [])
      ⟨"INSERT", [], connItem "t0" "c1" "u1"⟩ ≠ .ok none := by
  refine ⟨rfl, ?_⟩
  intro h
  rw [show process_record (fun _ => true) (.ok [])
    ⟨"INSERT", [], connItem "t0" "c1" "u1"⟩ =
      .error "Missing PK" from rfl] at h
  exact Except.noConfusion h

/-- C10 (amended): the item written by register has partition key equal
to sort key equal to `CONNECTION#` followed by the connection id and
entity type `connection`; deregister deletes exactly that key; the
written key carries the `CONNECTION#` prefix, and the stream records
such a write or delete produces are dropped by the classifier — failed
at key extraction with `Missing PK`, its `CONNECTION#` filter (last
conjunct) being unreachable — so registry bookkeeping is never broadcast
as a domain notification. -/
theorem registry_keys_never_broadcast (s : Store) (now cid uid : String) :
    storeGet (save_connection s now cid uid) (connPK cid, connPK cid) =
      some (connItem now cid uid) ∧
    alookup "PK" (connItem now cid uid) = some (.S (connPK cid)) ∧
    alookup "SK" (connItem now cid uid) = some (.S (connPK cid)) ∧
    alookup "entity_type" (connItem now cid uid) =
      some (.S "connection") ∧
    strStartsWith (connPK cid) "CONNECTION#" = true ∧
    remove_connection s cid = deleteItem s (connPK cid, connPK cid) ∧
    (∀ (push : String → Bool) (getAll : Except String (List Connection))
      (ev : String) (oldI : Item),
      notificationOf (process_record push getAll
        ⟨ev, oldI, connItem now cid uid⟩) = none ∧
      pushesOf (process_record push getAll
        ⟨ev, oldI, connItem now cid uid⟩) = []) ∧
    (∀ (push : String → Bool) (getAll : Except String (List Connection))
      (ev : String),
      notificationOf (process_record push getAll
        ⟨ev, connItem now cid uid, []⟩) = none ∧
      pushesOf (process_record push getAll
        ⟨ev, connItem now cid uid, []⟩) = []) ∧
    (∀ (ev : String) (oldI : Item),
      classifyAux ⟨ev, oldI, connItem now cid uid⟩ (connPK cid) =
        none) := by
  refine ⟨storeGet_putItem s _ _, rfl, rfl, rfl,
    strStartsWith_append "CONNECTION#" cid, rfl, ?_, ?_, ?_⟩
  · intro push getAll ev oldI
    exact ⟨by simp only [notificationOf, process_record_missing_pk],
      by simp only [pushesOf, process_record_missing_pk]⟩
  · intro push getAll ev
    exact ⟨by simp only [notificationOf, process_record_missing_pk],
      by simp only [pushesOf, process_record_missing_pk]⟩
  · intro ev oldI
    exact classifyAux_connection _ cid
